import Mathlib

/-!
Verification development for the Lunaris instance lifecycle orchestration core.

This file gives a shallow embedding, in Lean 4, of the TypeScript functions of
the repository that the lifecycle claims are about:

- the EC2 wrapper (lambda/src/utils/ec2Wrapper.ts): getInstanceDetails,
  canTerminate, handleStoppingState, terminateInstance, waitForTermination;
- the terminate workflow (lambda/src/handlers/user-terminate-ec2/terminate-ec2.ts);
- the SSM wait primitives (configure-dcv-instance.ts waitForCommand and the
  DCV wrapper waitForSSMCommand);
- the ConfigureDcvInstance handler (configure-dcv-instance.ts);
- the status aggregator (lambda/src/handlers/api.ts): getStepInfoFromHistory,
  getErrorDetails, handleDeploymentStatus, and the deploy-side execution
  naming of handleDeployInstance;
- the UpdateRunningStreams deploy-side handler (placeholder-to-real-id swap).

Conventions of the embedding: asynchronous AWS calls are replaced by explicit
environment/oracle values describing what the backend answers; thrown
JavaScript errors become an Except with a structured error type Err carrying
the same message strings as the source; JavaScript truthiness of optional
strings is modelled by jsOr / jsTruthy; Date-valued response fields which no
claim inspects (startedAt, completedAt) are omitted from response records.
-/

namespace Lunaris

/-! ## String helpers (JavaScript string semantics) -/

/-- Boolean test whether the first character list is a prefix of the second. -/
def charsStartsWith : List Char → List Char → Bool
  | [], _ => true
  | _ :: _, [] => false
  | a :: as, b :: bs => a == b && charsStartsWith as bs

/-- Boolean test whether the character list n occurs contiguously inside the
second list. -/
def charsHasSub (n : List Char) : List Char → Bool
  | [] => charsStartsWith n []
  | c :: cs => charsStartsWith n (c :: cs) || charsHasSub n cs

/-- JavaScript String.prototype.includes: needle occurs inside hay. -/
def containsSubstr (needle hay : String) : Bool :=
  charsHasSub needle.toList hay.toList

/-- JavaScript String.prototype.startsWith, also DynamoDB begins_with. -/
def strStartsWith (p s : String) : Bool :=
  charsStartsWith p.toList s.toList

/-- JavaScript a || b for an optional string a: undefined and the empty string
are falsy, so they fall through to b. -/
def jsOr (a : Option String) (b : String) : String :=
  match a with
  | some s => if s = "" then b else s
  | none => b

/-- JavaScript a || b for two plain strings. -/
def jsOrStr (a b : String) : String :=
  if a = "" then b else a

/-- JavaScript truthiness of an optional string. -/
def jsTruthy : Option String → Bool
  | some s => !(s == "")
  | none => false

/-- JavaScript truthiness of a plain string. -/
def jsTruthyStr (s : String) : Bool :=
  !(s == "")

/-- JavaScript String.prototype.replace of every dot by a dash (the
ip.replace regex used to build nip.io domains). -/
def dotsToDashes (s : String) : String :=
  s.map (fun c => if c == '.' then '-' else c)

/-! ## Errors

Thrown JavaScript Error values are modelled by a structured type.  errMessage
reproduces the message strings of the source, so that catch clauses which test
message contents (message.includes of ErrorMessages.INSTANCE_NOT_FOUND) can be
embedded faithfully; errName reproduces the error name used by name-based
catch clauses. -/

/-- The ErrorMessages.INSTANCE_NOT_FOUND constant of ec2Wrapper.ts. -/
def notFoundMessage : String := "Instance does not exist or is not available"

inductive Err where
  | instanceNotFound (id : String)
  | pendingBusy
  | unsupportedState (s : String)
  | stopWaitFailed (id : String)
  | terminationFailed
  | waitTerminationFailed (msg : String)
  | missingTableNameEnv
  | missingField (f : String)
  | missingFields
  | ssmCommandFailed (status : String)
  | ssmTimeout (commandId : String)
  | invocationDoesNotExist
  | other (name msg : String)
deriving DecidableEq, Repr

/-- The message string of each modelled error, as produced by the source. -/
def errMessage : Err → String
  | .instanceNotFound id => notFoundMessage ++ ": " ++ id
  | .pendingBusy => "Instance is in a pending state and cannot be terminated yet"
  | .unsupportedState s => "Unknown or unsupported instance state: " ++ s
  | .stopWaitFailed id => "Timeout or error waiting for instance " ++ id ++ " to stop."
  | .terminationFailed => "Failed to terminate the instance"
  | .waitTerminationFailed m => "Failed to wait for termination of the instance: " ++ m
  | .missingTableNameEnv => "MissingTableNameEnv"
  | .missingField f => "Missing required field: " ++ f
  | .missingFields => "Missing required fields: instanceId, dcvIp, dcvPassword"
  | .ssmCommandFailed s => "SSM command failed with status: " ++ s
  | .ssmTimeout commandId => "Timeout waiting for SSM command " ++ commandId
  | .invocationDoesNotExist => "InvocationDoesNotExist"
  | .other _ m => m

/-- The name of each modelled error (the err.name checked by catch clauses). -/
def errName : Err → String
  | .invocationDoesNotExist => "InvocationDoesNotExist"
  | .other n _ => n
  | _ => "Error"

/-! ## EC2 wrapper (ec2Wrapper.ts) -/

/-- One entry of InstanceDetails.volumes (a block device mapping). -/
structure EbsVolume where
  volumeId : Option String := none
  deviceName : Option String := none
  deleteOnTermination : Option Bool := none
deriving DecidableEq, Repr

/-- The InstanceDetails record returned by EC2Wrapper.getInstanceDetails. -/
structure InstanceDetails where
  instanceId : Option String := none
  state : Option String := none
  publicIp : Option String := none
  privateIp : Option String := none
  volumes : List EbsVolume := []
deriving DecidableEq, Repr

/-- The TerminatingInstances[0] entry of a TerminateInstancesCommand response. -/
structure TermStateInfo where
  instanceId : Option String := none
  currentState : Option String := none
deriving DecidableEq, Repr

/-- The answers the EC2 backend gives during one run: the describe-instances
answer per instance id (none models a missing instance, which the wrapper
turns into an INSTANCE_NOT_FOUND error), the outcome of the
waitUntilInstanceStopped waiter, the outcome of the terminate call, and the
outcome of the waitUntilInstanceTerminated waiter. -/
structure Ec2Backend where
  describeInstance : String → Option InstanceDetails
  stopWaitOk : Bool := true
  terminateResp : Except Err (Option TermStateInfo) := .ok none
  termWaitOutcome : Except Err Unit := .ok ()

/-- EC2Wrapper.getInstanceDetails: describe the instance, throwing
INSTANCE_NOT_FOUND when the backend has no such instance. -/
def getInstanceDetails (b : Ec2Backend) (instanceId : String) : Except Err InstanceDetails :=
  match b.describeInstance instanceId with
  | none => .error (.instanceNotFound instanceId)
  | some d => .ok d

/-- EC2Wrapper.handleStoppingState: wait (bounded) for a stopping instance to
reach stopped; a waiter failure is rethrown as a timeout error. -/
def handleStoppingState (b : Ec2Backend) (instanceId : String) : Except Err Bool :=
  if b.stopWaitOk then .ok true else .error (.stopWaitFailed instanceId)

/-- The try-block of EC2Wrapper.canTerminate: the switch over the current
instance state. -/
def canTerminateRaw (b : Ec2Backend) (instanceId : String) : Except Err Bool :=
  match getInstanceDetails b instanceId with
  | .error e => .error e
  | .ok d =>
    match d.state with
    | none => .error (.unsupportedState "undefined")
    | some s =>
      if s = "pending" then .error .pendingBusy
      else if s = "stopping" then handleStoppingState b instanceId
      else if s = "shutting-down" then .ok false
      else if s = "terminated" then .ok false
      else if s = "running" then .ok true
      else if s = "stopped" then .ok true
      else .error (.unsupportedState s)

/-- EC2Wrapper.canTerminate: the switch, plus its catch clause, which treats
any error whose message contains INSTANCE_NOT_FOUND as already terminated. -/
def canTerminate (b : Ec2Backend) (instanceId : String) : Except Err Bool :=
  match canTerminateRaw b instanceId with
  | .ok v => .ok v
  | .error e =>
    if containsSubstr notFoundMessage (errMessage e) then .ok false else .error e

/-- The TerminateResult record of ec2Wrapper.ts.  The state field is optional
because the source casts CurrentState?.Name without defaulting. -/
structure TerminateResult where
  instanceId : String
  state : Option String
  wasAlreadyTerminated : Bool
deriving DecidableEq, Repr

/-- EC2Wrapper.terminateInstance.  The second component records whether a
TerminateInstancesCommand was actually sent to the backend. -/
def terminateInstance (b : Ec2Backend) (instanceId : String) :
    Except Err TerminateResult × Bool :=
  match canTerminate b instanceId with
  | .error e => (.error e, false)
  | .ok false =>
    (.ok { instanceId := instanceId, state := some "terminated", wasAlreadyTerminated := true },
     false)
  | .ok true =>
    match b.terminateResp with
    | .error e => (.error e, true)
    | .ok none => (.error .terminationFailed, true)
    | .ok (some t) =>
      (.ok { instanceId := jsOr t.instanceId instanceId, state := t.currentState,
             wasAlreadyTerminated := false },
       true)

/-- EC2Wrapper.waitForTermination: wait for full termination, then re-describe;
the catch clause maps any INSTANCE_NOT_FOUND error to a terminated result. -/
def waitForTermination (b : Ec2Backend) (instanceId : String) : Except Err TerminateResult :=
  let raw : Except Err TerminateResult :=
    match b.termWaitOutcome with
    | .error e => .error e
    | .ok _ =>
      match getInstanceDetails b instanceId with
      | .error e => .error e
      | .ok d =>
        .ok { instanceId := instanceId, state := some (jsOr d.state "unkown"),
              wasAlreadyTerminated := false }
  match raw with
  | .ok r => .ok r
  | .error e =>
    if containsSubstr notFoundMessage (errMessage e) then
      .ok { instanceId := instanceId, state := some "terminated", wasAlreadyTerminated := false }
    else .error (.waitTerminationFailed (errMessage e))

/-! ## Terminate workflow (terminate-ec2.ts) -/

/-- The StopDCVSessionResult record of the DCV wrapper. -/
structure StopDCVSessionResult where
  instanceId : Option String := none
  stoppedSuccessfully : Bool
  message : String
deriving DecidableEq, Repr

/-- The result record of EBSWrapper.detachEBSVolume (as exercised by the
repository tests, its state field reports the detachment state, for example
detached or detach-failed). -/
structure DetachResult where
  volumeId : String
  instanceId : String
  state : String
deriving DecidableEq, Repr

/-- Outcomes of the non-EC2 collaborators of the terminate workflow: the DCV
stop call, the EBS detach call, and the DynamoDB status update. -/
structure TermEnv where
  stopDcv : Except Err StopDCVSessionResult
  detach : Except Err DetachResult
  dbUpdateOk : Bool := true

/-- The TerminateEc2Result record of terminate-ec2.ts. -/
structure TerminateEc2Result where
  success : Bool
  instanceId : Option String := none
  dcvStopped : Option Bool := none
  detachVolumeState : Option String := none
  terminateInstanceState : Option String := none
  dynamoDbUpdateStatus : Option String := none
  message : Option String := none
  error : Option String := none
deriving DecidableEq, Repr

/-- terminateWorkflow of terminate-ec2.ts: best-effort DCV stop and volume
detach (each failure caught and absorbed), required terminateInstance, then a
best-effort DynamoDB status update. -/
def terminateWorkflow (b : Ec2Backend) (env : TermEnv) (instanceId userId : String) :
    Except Err TerminateEc2Result :=
  let initDcv : StopDCVSessionResult :=
    { stoppedSuccessfully := false, message := "DCV stop skipped" }
  let middle : StopDCVSessionResult × String :=
    match getInstanceDetails b instanceId with
    | .error _ => (initDcv, "skipped")
    | .ok instanceDetails =>
      let volumeId : Option String :=
        match instanceDetails.volumes.head? with
        | none => none
        | some v => v.volumeId
      let dcvResult : StopDCVSessionResult :=
        match env.stopDcv with
        | .ok r => r
        | .error _ => initDcv
      let detachState : String :=
        if jsTruthy volumeId then
          match env.detach with
          | .ok dr => dr.state
          | .error _ => "skipped"
        else "skipped"
      (dcvResult, detachState)
  match (terminateInstance b instanceId).1 with
  | .error e => .error e
  | .ok terminateResult =>
    let dynamoDbUpdateStatus := if env.dbUpdateOk then "updated" else "not_found"
    .ok { success := true,
          instanceId := some instanceId,
          dcvStopped := some middle.1.stoppedSuccessfully,
          detachVolumeState := some middle.2,
          terminateInstanceState := terminateResult.state,
          dynamoDbUpdateStatus := some dynamoDbUpdateStatus,
          message := some ("Instance " ++ instanceId ++ " terminated successfully.") }

/-! ## SSM wait primitives -/

/-- The GetCommandInvocationCommand response fields read by waitForCommand. -/
structure InvocationResp where
  status : Option String := none
  stdout : Option String := none
  stderr : Option String := none
  statusDetails : Option String := none
deriving DecidableEq, Repr

/-- The result shape of configure-dcv-instance.ts waitForCommand/runCommand. -/
structure CmdOutcome where
  success : Bool
  output : String
  error : String
deriving DecidableEq, Repr

/-- The value waitForCommand returns once the deadline is exceeded. -/
def cmdTimedOut : CmdOutcome :=
  { success := false, output := "", error := "Command timed out" }

/-- One loop iteration chain of configure-dcv-instance.ts waitForCommand.
The trace gives, for each poll index, the GetCommandInvocation answer
(Except error models a thrown SDK error such as InvocationDoesNotExist).
Poll k happens at elapsed time k * 5000 ms; the fuel argument only bounds the
recursion and is chosen large enough in waitForCommand that it never runs out
before the while-condition (elapsed below timeoutMs) fails. -/
def waitForCommandAux (trace : Nat → Except Err InvocationResp) (timeoutMs : Nat) :
    Nat → Nat → Except Err CmdOutcome
  | _, 0 => .ok cmdTimedOut
  | k, fuel + 1 =>
    if k * 5000 < timeoutMs then
      match trace k with
      | .ok r =>
        if r.status == some "Success" then
          .ok { success := true, output := jsOr r.stdout "", error := jsOr r.stderr "" }
        else if r.status == some "Failed" || r.status == some "Cancelled"
            || r.status == some "TimedOut" then
          .ok { success := false, output := jsOr r.stdout "",
                error := jsOr r.stderr (jsOr r.statusDetails "Command failed") }
        else waitForCommandAux trace timeoutMs (k + 1) fuel
      | .error e =>
        if errName e == "InvocationDoesNotExist" then
          waitForCommandAux trace timeoutMs (k + 1) fuel
        else .error e
    else .ok cmdTimedOut

/-- configure-dcv-instance.ts waitForCommand (default timeoutMs is 120000). -/
def waitForCommand (trace : Nat → Except Err InvocationResp) (timeoutMs : Nat) :
    Except Err CmdOutcome :=
  waitForCommandAux trace timeoutMs 0 (timeoutMs / 5000 + 2)

/-- One answer of the command agent backend to a status poll. -/
inductive AgentPoll where
  | status (s : String)
  | notVisible
  | failure (e : Err)
deriving DecidableEq, Repr

/-- Modelled from the spec: ssmWrapper.getCommandStatus is not part of the
provided sources (only its caller, the DCV wrapper, is).  Per the spec the
wait primitive treats an invocation that is not yet visible as a transient
condition, so the status fetcher reports a non-terminal Pending status for a
not-yet-visible invocation instead of failing. -/
def getCommandStatus : AgentPoll → Except Err String
  | .status s => .ok s
  | .notVisible => .ok "Pending"
  | .failure e => .error e

/-- One loop iteration chain of DCVWrapper.waitForSSMCommand.  Poll k happens
at elapsed time k * 10000 ms; the source checks the deadline after a
non-terminal poll (elapsed strictly greater than maxWaitMs throws). -/
def waitForSSMCommandAux (backend : Nat → AgentPoll) (maxWaitMs : Nat) (commandId : String) :
    Nat → Nat → Except Err Unit
  | _, 0 => .error (.ssmTimeout commandId)
  | k, fuel + 1 =>
    match getCommandStatus (backend k) with
    | .error e => .error e
    | .ok s =>
      if s == "Success" then .ok ()
      else if s == "Failed" || s == "Cancelled" || s == "TimedOut" then
        .error (.ssmCommandFailed s)
      else if maxWaitMs < k * 10000 then .error (.ssmTimeout commandId)
      else waitForSSMCommandAux backend maxWaitMs commandId (k + 1) fuel

/-- DCVWrapper.waitForSSMCommand (maxWaitSeconds defaults to 600). -/
def waitForSSMCommand (backend : Nat → AgentPoll) (commandId : String)
    (maxWaitSeconds : Nat) : Except Err Unit :=
  waitForSSMCommandAux backend (maxWaitSeconds * 1000) commandId 0
    (maxWaitSeconds * 1000 / 10000 + 2)

/-- A poll answer that is not one of the four terminal statuses for
waitForCommand (an in-progress status, or a not-yet-visible invocation). -/
def cfgNonTerminal : Except Err InvocationResp → Bool
  | .ok r =>
    !(r.status == some "Success" || r.status == some "Failed"
      || r.status == some "Cancelled" || r.status == some "TimedOut")
  | .error e => errName e == "InvocationDoesNotExist"

/-- A backend poll answer that is not terminal for waitForSSMCommand. -/
def agentNonTerminal : AgentPoll → Bool
  | .status s => !(s == "Success" || s == "Failed" || s == "Cancelled" || s == "TimedOut")
  | .notVisible => true
  | .failure _ => false

/-! ## ConfigureDcvInstance handler (configure-dcv-instance.ts) -/

/-- The ConfigureDcvResult record. -/
structure ConfigureDcvResult where
  success : Bool
  sslConfigured : Bool
  passwordSet : Bool
  message : String
deriving DecidableEq, Repr

/-- Outcomes of the five runCommand invocations issued by the handler, in
source order: set password, disable IE enhanced security, set up win-acme,
request the certificate, copy the certificate and restart DCV.  An Except
error models runCommand throwing (failed send, or a rethrown poll error). -/
structure DcvEnv where
  passwordCmd : Except Err CmdOutcome
  ieCmd : Except Err CmdOutcome
  acmeSetupCmd : Except Err CmdOutcome
  certCmd : Except Err CmdOutcome
  copyCertCmd : Except Err CmdOutcome

/-- The catch clause of the handler: report the booleans reached so far. -/
def configureDcvCatch (passwordSet sslConfigured : Bool) (e : Err) : ConfigureDcvResult :=
  { success := false, passwordSet := passwordSet, sslConfigured := sslConfigured,
    message := errMessage e }

/-- The final return of the try block. -/
def configureDcvFinish (passwordSet sslConfigured : Bool) : ConfigureDcvResult :=
  { success := passwordSet && sslConfigured, passwordSet := passwordSet,
    sslConfigured := sslConfigured,
    message := "Password: " ++ (if passwordSet then "OK" else "FAILED")
      ++ ", SSL: " ++ (if sslConfigured then "OK" else "FAILED") }

/-- The try block of the ConfigureDcvInstance handler. -/
def configureDcvBody (env : DcvEnv) : ConfigureDcvResult :=
  match env.passwordCmd with
  | .error e => configureDcvCatch false false e
  | .ok passwordResult =>
    let passwordSet := passwordResult.success
    match env.ieCmd with
    | .error e => configureDcvCatch passwordSet false e
    | .ok _ =>
      match env.acmeSetupCmd with
      | .error e => configureDcvCatch passwordSet false e
      | .ok _ =>
        match env.certCmd with
        | .error e => configureDcvCatch passwordSet false e
        | .ok certResult =>
          if containsSubstr "created" certResult.output
              || containsSubstr "Certificate" certResult.output then
            match env.copyCertCmd with
            | .error e => configureDcvCatch passwordSet false e
            | .ok copyResult =>
              configureDcvFinish passwordSet (containsSubstr "SSL configured" copyResult.output)
          else configureDcvFinish passwordSet false

/-- The ConfigureDcvInstance handler: field validation throws; everything else
is caught into a structured ConfigureDcvResult. -/
def configureDcvInstance (instanceId dcvIp dcvPassword : String) (env : DcvEnv) :
    Except Err ConfigureDcvResult :=
  if !jsTruthyStr instanceId || !jsTruthyStr dcvIp || !jsTruthyStr dcvPassword then
    .error .missingFields
  else .ok (configureDcvBody env)

/-! ## Status aggregator (api.ts) -/

/-- One entry of the static step lists. -/
structure Step where
  name : String
  displayName : String
  order : Nat
deriving DecidableEq, Repr

def DEPLOY_STEPS : List Step :=
  [{ name := "CheckRunningStreams", displayName := "Checking existing streams", order := 1 },
   { name := "CheckIfValidStream", displayName := "Validating stream status", order := 2 },
   { name := "DeployEC2", displayName := "Deploying EC2 instance", order := 3 },
   { name := "WaitForInstanceReady", displayName := "Waiting for instance to be ready", order := 4 },
   { name := "ConfigureDcvInstance", displayName := "Configuring DCV session", order := 5 },
   { name := "UpdateRunningStreams", displayName := "Updating streaming database", order := 6 },
   { name := "DeploymentSuccess", displayName := "Deployment complete", order := 7 }]

def TERMINATE_STEPS : List Step :=
  [{ name := "CheckRunningStreams", displayName := "Checking running streams", order := 1 },
   { name := "TerminateEC2", displayName := "Terminating EC2 instance", order := 2 },
   { name := "UpdateRunningStreams", displayName := "Updating streaming database", order := 3 },
   { name := "TerminationSuccess", displayName := "Termination complete", order := 4 }]

/-- The StepInfo record computed by getStepInfoFromHistory. -/
structure StepInfo where
  currentStep : String
  currentStepName : String
  stepNumber : Nat
  totalSteps : Nat
  completedSteps : List String
  progress : Nat
deriving DecidableEq, Repr

/-- An execution history event, restricted to the fields the aggregator
reads.  stateEntered covers TaskStateEntered (isWait false) and
WaitStateEntered (isWait true); stateExited likewise; taskFailed covers
TaskFailed and LambdaFunctionFailed. -/
inductive HEvent where
  | stateEntered (isWait : Bool) (name : Option String)
  | stateExited (isWait : Bool) (name : Option String)
  | execSucceeded
  | taskFailed (isLambda : Bool) (errorName cause : Option String)
  | execFailed (errorName cause : Option String)
  | otherEvent
deriving DecidableEq, Repr

/-- JavaScript Math.round of (c / t * 100) for natural c and positive t:
round half away from zero, which for non-negative arguments is
floor((200 c + t) / (2 t)). -/
def roundPct (c t : Nat) : Nat :=
  (200 * c + t) / (2 * t)

/-- The forced StepInfo returned on an ExecutionSucceeded event: current step
is the last step, every step is completed, progress is 100. -/
def successInfo (steps : List Step) : StepInfo :=
  let lastStep := steps.getLast?.getD { name := "", displayName := "", order := 0 }
  { currentStep := lastStep.name, currentStepName := lastStep.displayName,
    stepNumber := steps.length, totalSteps := steps.length,
    completedSteps := steps.map (fun s => s.name), progress := 100 }

/-- The effect of a state-entered event on (currentStep, currentStepName,
stepNumber): a truthy name becomes the current step, and when it is found in
the static list its display name and order are taken. -/
def applyEntered (steps : List Step) (name : Option String) (cs csn : String) (sn : Nat) :
    String × String × Nat :=
  match name with
  | some n =>
    if n != "" then
      match steps.find? (fun s => s.name == n) with
      | some st => (n, st.displayName, st.order)
      | none => (n, csn, sn)
    else (cs, csn, sn)
  | none => (cs, csn, sn)

/-- The effect of a state-exited event on completedSteps: a truthy name not
yet present is appended. -/
def applyExited (name : Option String) (completed : List String) : List String :=
  match name with
  | some n =>
    if n != "" && !(completed.contains n) then completed ++ [n] else completed
  | none => completed

/-- The event loop of getStepInfoFromHistory, with the mutable loop state
(currentStep, currentStepName, stepNumber, completedSteps) made explicit. -/
def stepFold (steps : List Step) :
    List HEvent → String → String → Nat → List String → StepInfo
  | [], cs, csn, sn, completed =>
    { currentStep := cs, currentStepName := csn, stepNumber := sn,
      totalSteps := steps.length, completedSteps := completed,
      progress := roundPct completed.length steps.length }
  | .stateEntered _ name :: rest, cs, csn, sn, completed =>
    stepFold steps rest (applyEntered steps name cs csn sn).1
      (applyEntered steps name cs csn sn).2.1 (applyEntered steps name cs csn sn).2.2 completed
  | .stateExited _ name :: rest, cs, csn, sn, completed =>
    stepFold steps rest cs csn sn (applyExited name completed)
  | .execSucceeded :: _, _, _, _, _ => successInfo steps
  | .taskFailed _ _ _ :: rest, cs, csn, sn, completed =>
    stepFold steps rest cs csn sn completed
  | .execFailed _ _ :: rest, cs, csn, sn, completed =>
    stepFold steps rest cs csn sn completed
  | .otherEvent :: rest, cs, csn, sn, completed =>
    stepFold steps rest cs csn sn completed

/-- getStepInfoFromHistory of api.ts. -/
def getStepInfoFromHistory (events : List HEvent) (isTerminate : Bool) : StepInfo :=
  let steps := if isTerminate then TERMINATE_STEPS else DEPLOY_STEPS
  let first := steps.head?.getD { name := "", displayName := "", order := 0 }
  stepFold steps events first.name first.displayName 1 []

/-- The step list selected by the aggregator. -/
def stepsFor (isTerminate : Bool) : List Step :=
  if isTerminate then TERMINATE_STEPS else DEPLOY_STEPS

/-- The names of the completed (exited) steps counted by the aggregator. -/
def completedCount (events : List HEvent) (isTerminate : Bool) : Nat :=
  (getStepInfoFromHistory events isTerminate).completedSteps.length

/-- The truthy names of the state-exited events of a history, in order. -/
def exitNames : List HEvent → List String
  | [] => []
  | .stateExited _ (some n) :: rest => if n != "" then n :: exitNames rest else exitNames rest
  | .stateExited _ none :: rest => exitNames rest
  | _ :: rest => exitNames rest

/-! ## Error detail extraction (getErrorDetails of api.ts) -/

structure ErrorDetails where
  errorStep : String
  errorType : String
  errorMessage : String
deriving DecidableEq, Repr

/-- The (error, cause) details of a task-failure event, when the event is
one. -/
def failDetailsOf : HEvent → Option (Option String × Option String)
  | .taskFailed _ e c => some (e, c)
  | _ => none

/-- The inner look-ahead loop of getErrorDetails: the first task-failure
event with index in the window from i+1 up to (exclusive) min(length, i+5). -/
def lookAheadFail (events : List HEvent) (i : Nat) : Option (Option String × Option String) :=
  (List.range 4).findSome? (fun d =>
    match events[i + 1 + d]? with
    | some ev => failDetailsOf ev
    | none => none)

/-- The backward scan of getErrorDetails; the argument is one more than the
index currently examined, so fuel i+1 examines events[i]. -/
def scanErrAux (events : List HEvent) : Nat → Option ErrorDetails
  | 0 => none
  | i + 1 =>
    match events[i]? with
    | none => scanErrAux events i
    | some ev =>
      match ev with
      | .taskFailed _ e c =>
        some { errorStep := "Unknown", errorType := jsOr e "TaskFailed",
               errorMessage := jsOr c "Task execution failed" }
      | .execFailed e c =>
        some { errorStep := "Execution", errorType := jsOr e "ExecutionFailed",
               errorMessage := jsOr c "Execution failed" }
      | .stateEntered false name =>
        match lookAheadFail events i with
        | some (e, c) =>
          some { errorStep := jsOr name "Unknown", errorType := jsOr e "TaskFailed",
                 errorMessage := jsOr c "Task execution failed" }
        | none => scanErrAux events i
      | _ => scanErrAux events i

/-- getErrorDetails of api.ts. -/
def getErrorDetails (events : List HEvent) : Option ErrorDetails :=
  scanErrAux events events.length

/-! ## Deployment status handler (handleDeploymentStatus of api.ts) -/

/-- One RunningInstances (GamingInstance) registry record. -/
structure InstRecord where
  instanceId : String
  userId : String
  executionArn : Option String := none
  status : String := ""
  creationTime : String := ""
  lastModifiedTime : String := ""
deriving DecidableEq, Repr

/-- The DescribeExecution answer fields read by the handler; the out fields
are the JSON-parsed execution output fields the handler projects. -/
structure ExecDesc where
  executionArn : Option String := none
  status : Option String := none
  outInstanceId : Option String := none
  outDcvUrl : Option String := none
  outError : Option String := none
  outMessage : Option String := none
  errorInfo : Option String := none
  causeInfo : Option String := none
deriving DecidableEq, Repr

/-- What the collaborators answer during one handleDeploymentStatus request:
the registry query by user (most recent first), the DescribeExecution call,
and the GetExecutionHistory call. -/
structure StatusEnv where
  queryResult : Except Err (List InstRecord)
  describeResult : Except Err ExecDesc
  historyResult : Except Err (List HEvent)

/-- The response fields of the handler that the claims inspect (the two Date
fields startedAt/completedAt are omitted). -/
structure StatusResponse where
  statusCode : Nat
  status : String
  message : String
  deploymentStatus : Option String := none
  errorName : Option String := none
  errorStep : Option String := none
  failedAt : Option String := none
  instanceId : Option String := none
  dcvUrl : Option String := none
  currentStep : Option String := none
  currentStepName : Option String := none
  stepNumber : Option Nat := none
  totalSteps : Option Nat := none
  progress : Option Nat := none
  completedSteps : Option (List String) := none
deriving DecidableEq, Repr

/-- The outer catch clause of handleDeploymentStatus: a 500 response carrying
the error name and message, with status FAILED. -/
def catchResponse (e : Err) : StatusResponse :=
  { statusCode := 500, status := "FAILED", message := errMessage e,
    errorName := some (errName e) }

/-- The status switch of handleDeploymentStatus, after the execution was
described. -/
def statusSwitch (env : StatusEnv) (exec : ExecDesc) (runningInstance : InstRecord) :
    StatusResponse :=
  let executionArn := exec.executionArn.getD ""
  let isTerminate := containsSubstr "Terminate" executionArn
  let status := jsOr exec.status "UNKNOWN"
  let stepInfo : Option StepInfo :=
    match env.historyResult with
    | .error _ => none
    | .ok events => some (getStepInfoFromHistory events isTerminate)
  let errorDetails : Option ErrorDetails :=
    match env.historyResult with
    | .error _ => none
    | .ok events =>
      if status == "FAILED" || status == "TIMED_OUT" || status == "ABORTED" then
        getErrorDetails events
      else none
  if status == "RUNNING" then
    { statusCode := 200, status := "RUNNING",
      message := jsOr (stepInfo.map (fun si => si.currentStepName))
        (if isTerminate then "Termination in progress..." else "Deployment in progress..."),
      deploymentStatus := some (if isTerminate then "terminating" else "deploying"),
      currentStep := stepInfo.map (fun si => si.currentStep),
      currentStepName := stepInfo.map (fun si => si.currentStepName),
      stepNumber := stepInfo.map (fun si => si.stepNumber),
      totalSteps := stepInfo.map (fun si => si.totalSteps),
      progress := stepInfo.map (fun si => si.progress),
      completedSteps := stepInfo.map (fun si => si.completedSteps) }
  else if status == "SUCCEEDED" then
    if isTerminate then
      { statusCode := 200, status := "SUCCEEDED",
        message := "Instance has been terminated",
        deploymentStatus := some "terminated",
        instanceId := some (jsOr exec.outInstanceId runningInstance.instanceId),
        progress := some 100,
        totalSteps := stepInfo.map (fun si => si.totalSteps),
        completedSteps := stepInfo.map (fun si => si.completedSteps) }
    else
      { statusCode := 200, status := "SUCCEEDED",
        message := "Instance is ready for streaming",
        deploymentStatus := some "running",
        instanceId := some (jsOr exec.outInstanceId runningInstance.instanceId),
        dcvUrl := exec.outDcvUrl,
        progress := some 100,
        totalSteps := stepInfo.map (fun si => si.totalSteps),
        completedSteps := stepInfo.map (fun si => si.completedSteps) }
  else if status == "FAILED" || status == "TIMED_OUT" || status == "ABORTED" then
    { statusCode := 200, status := "FAILED",
      message := jsOr (errorDetails.map (fun ed => ed.errorMessage))
        (jsOr exec.outMessage (jsOr exec.causeInfo "Deployment failed")),
      errorName := some (jsOr (errorDetails.map (fun ed => ed.errorType))
        (jsOr exec.outError (jsOr exec.errorInfo "DeploymentFailed"))),
      errorStep := errorDetails.map (fun ed => ed.errorStep),
      failedAt := stepInfo.map (fun si => si.currentStepName),
      progress := stepInfo.map (fun si => si.progress),
      stepNumber := stepInfo.map (fun si => si.stepNumber),
      totalSteps := stepInfo.map (fun si => si.totalSteps),
      completedSteps := stepInfo.map (fun si => si.completedSteps) }
  else
    { statusCode := 200, status := "UNKNOWN",
      message := "Unknown execution status: " ++ status }

/-- handleDeploymentStatus of api.ts (the userId query parameter is assumed
present; its absence is a 400 response upstream of everything modelled here).
The function is total: every collaborator failure is converted into a
response, never rethrown. -/
def handleDeploymentStatus (env : StatusEnv) (userId : String) : StatusResponse :=
  match env.queryResult with
  | .error e => catchResponse e
  | .ok instances =>
    match instances.head? with
    | none =>
      { statusCode := 404, status := "NOT_FOUND",
        message := "No running instance found for userId: " ++ userId,
        errorName := some "NotFound" }
    | some runningInstance =>
      if !jsTruthy runningInstance.executionArn then
        { statusCode := 404, status := "NOT_FOUND",
          message := "No active deployment found for userId: " ++ userId,
          errorName := some "NotFound" }
      else
        match env.describeResult with
        | .error e => catchResponse e
        | .ok exec => statusSwitch env exec runningInstance

/-! ## Deploy-side execution naming and placeholder record (api.ts) -/

/-- The execution name built by handleDeployInstance and
handleTerminateInstance: userId dash Date.now(). -/
def executionNameFor (userId : String) (nowMs : Nat) : String :=
  userId ++ "-" ++ toString nowMs

/-- The deploy execution ARN shape (state machine UserDeployEC2Workflow with
the execution name appended, as in the handleDeployInstance mock ARN and the
AWS execution ARN format). -/
def mockDeployExecutionArn (userId : String) (nowMs : Nat) : String :=
  "arn:aws:states:us-east-1:123456789012:execution:UserDeployEC2Workflow:"
    ++ executionNameFor userId nowMs

/-- The placeholder RunningInstances record written by handleDeployInstance. -/
def placeholderRecord (userId executionArn executionName now : String) : InstRecord :=
  { instanceId := "pending-" ++ executionName, userId := userId,
    executionArn := some executionArn, status := "deploying",
    creationTime := now, lastModifiedTime := now }

/-! ## UpdateRunningStreams deploy handler (placeholder swap) -/

/-- One RunningStreams (StreamingSession) record, keyed by instanceArn. -/
structure StreamRecord where
  userId : String
  instanceId : String
  instanceArn : String
  dcvIp : String
  dcvPort : Nat
  dcvUser : String
  dcvPassword : String
  streamingLink : String
  updatedAt : String
  createdAt : String
deriving DecidableEq, Repr

/-- The UpdateRunningStreams event of the deploy workflow. -/
structure UpdateStreamsEvent where
  userId : String
  instanceId : String
  instanceArn : String
  dcvIp : String
  dcvPort : Nat
  dcvUser : String
  dcvPassword : String
deriving DecidableEq, Repr

/-- The two registries: RunningStreams as a map keyed by instanceArn, and
RunningInstances as the list of records the user query ranges over (query
order is list order). -/
structure DbState where
  streams : String → Option StreamRecord
  instances : List InstRecord

/-- Whether a RunningInstances record is a placeholder record of the given
user (the query condition of the swap: same userId and instanceId beginning
with pending-). -/
def isPlaceholderOf (userId : String) (r : InstRecord) : Bool :=
  r.userId == userId && strStartsWith "pending-" r.instanceId

/-- The RunningStreams payload written by the handler: connection details,
derived nip.io streaming link, updatedAt set to now, createdAt preserved via
if_not_exists when a record already exists under this instanceArn. -/
def persistPayload (st : DbState) (ev : UpdateStreamsEvent) (now : String) : StreamRecord :=
  { userId := ev.userId, instanceId := ev.instanceId, instanceArn := ev.instanceArn,
    dcvIp := ev.dcvIp, dcvPort := ev.dcvPort, dcvUser := ev.dcvUser,
    dcvPassword := ev.dcvPassword,
    streamingLink := "https://" ++ (dotsToDashes ev.dcvIp ++ ".nip.io") ++ ":"
      ++ toString ev.dcvPort,
    updatedAt := now,
    createdAt :=
      match st.streams ev.instanceArn with
      | some oldRec => oldRec.createdAt
      | none => now }

/-- The RunningStreams registry after the upsert keyed by instanceArn. -/
def persistStreams (st : DbState) (ev : UpdateStreamsEvent) (now : String) :
    String → Option StreamRecord :=
  fun k => if k = ev.instanceArn then some (persistPayload st ev now) else st.streams k

/-- The RunningInstances registry after the placeholder-to-real-id swap: the
first placeholder record of the user (query plus begins_with filter) is
deleted and a record keyed by the real instance id is put in its place,
carrying over executionArn and creationTime. -/
def persistInstances (st : DbState) (ev : UpdateStreamsEvent) (now : String)
    (instancesTableSet : Bool) : List InstRecord :=
  if instancesTableSet then
    match (st.instances.filter (isPlaceholderOf ev.userId)).head? with
    | none => st.instances
    | some oldRecord =>
      ({ instanceId := ev.instanceId, userId := ev.userId,
         executionArn := oldRecord.executionArn, status := "running",
         creationTime := jsOrStr oldRecord.creationTime now,
         lastModifiedTime := now } : InstRecord)
        :: (st.instances.filter (fun r => !(r.instanceId == oldRecord.instanceId))).filter
            (fun r => !(r.instanceId == ev.instanceId))
  else st.instances

/-- The UpdateRunningStreams handler of the deploy workflow (part_014):
upsert the RunningStreams record keyed by instanceArn, then swap the
placeholder RunningInstances record.  The two table-name environment flags
mirror the env checks of the source; DynamoDB operations are modelled as
succeeding; the result component mirrors the returned success/instanceId. -/
def updateRunningStreams (st : DbState) (ev : UpdateStreamsEvent) (now : String)
    (streamsTableSet instancesTableSet : Bool) :
    Except Err (DbState × Bool × String) :=
  if !streamsTableSet then .error .missingTableNameEnv
  else if !jsTruthyStr ev.instanceArn then .error (.missingField "instanceArn")
  else
    .ok ({ streams := persistStreams st ev now,
           instances := persistInstances st ev now instancesTableSet },
         true, ev.instanceId)

/-- Lookup of a RunningInstances record by its primary key. -/
def lookupInstance (l : List InstRecord) (instanceId : String) : Option InstRecord :=
  l.find? (fun r => r.instanceId == instanceId)

/-- A backend with no instances at all (every describe answers not-found). -/
def emptyBackend : Ec2Backend :=
  { describeInstance := fun _ => none }

/-! # Theorems -/

/-! ## String-containment helper lemmas -/

theorem charsStartsWith_self_append (l r : List Char) :
    charsStartsWith l (l ++ r) = true := by
  induction l with
  | nil => rfl
  | cons a as ih => simp [charsStartsWith, ih]

theorem charsHasSub_self_append (l r : List Char) :
    charsHasSub l (l ++ r) = true := by
  cases l with
  | nil =>
    cases r with
    | nil => rfl
    | cons c cs => simp [charsHasSub, charsStartsWith]
  | cons a as =>
    have h1 : charsStartsWith (a :: as) (a :: (as ++ r)) = true := by
      simp [charsStartsWith, charsStartsWith_self_append]
    simp [charsHasSub, h1]

theorem containsSubstr_self_append (p s : String) :
    containsSubstr p (p ++ s) = true := by
  unfold containsSubstr
  have h : (p ++ s).toList = p.toList ++ s.toList := by
    simp [String.toList]
  rw [h]
  exact charsHasSub_self_append p.toList s.toList

theorem notFound_message_contains (id : String) :
    containsSubstr notFoundMessage (errMessage (.instanceNotFound id)) = true := by
  have h : errMessage (.instanceNotFound id) = notFoundMessage ++ (": " ++ id) := by
    simp [errMessage, String.append_assoc]
  rw [h]
  exact containsSubstr_self_append notFoundMessage (": " ++ id)

/-! ## C1: state-gated idempotent termination -/

/--
C1: For every instance whose backend-reported state is shutting-down or
terminated, and for every instance id the backend reports as not found,
canTerminate returns false (not terminable), and terminateInstance then
returns a result with wasAlreadyTerminated true and state terminated,
without issuing a terminate call to the backend (the Bool component of
terminateInstance, which records whether a TerminateInstancesCommand was
sent, is false).
-/
theorem c1_canTerminate_idempotent (b : Ec2Backend) (id : String)
    (h : b.describeInstance id = none ∨
      ∃ d, b.describeInstance id = some d ∧
        (d.state = some "shutting-down" ∨ d.state = some "terminated")) :
    canTerminate b id = .ok false ∧
    terminateInstance b id =
      (.ok { instanceId := id, state := some "terminated", wasAlreadyTerminated := true },
       false) := by
  have hc : canTerminate b id = .ok false := by
    rcases h with h | ⟨d, hd, hs⟩
    · unfold canTerminate canTerminateRaw getInstanceDetails
      rw [h]
      simp [notFound_message_contains]
    · unfold canTerminate canTerminateRaw getInstanceDetails
      rw [hd]
      rcases hs with hs | hs <;> simp [hs]
  refine ⟨hc, ?_⟩
  unfold terminateInstance
  rw [hc]

/-- Witness for C1 at a backend that knows no instance. -/
theorem c1_witness :
    canTerminate emptyBackend "i-0abc" = .ok false ∧
    terminateInstance emptyBackend "i-0abc" =
      (.ok { instanceId := "i-0abc", state := some "terminated", wasAlreadyTerminated := true },
       false) :=
  c1_canTerminate_idempotent emptyBackend "i-0abc" (Or.inl rfl)

/-! ## C7: waitForTermination on a purged instance -/

/--
C7: For every instance id that the backend reports as not found while waiting
for termination (either the terminated-waiter succeeds and the re-describe
finds no instance, or the waiter itself fails with the not-found error),
waitForTermination returns a result with state terminated and does not raise
an error.
-/
theorem c7_waitForTermination_notFound (b : Ec2Backend) (id : String)
    (h : (b.termWaitOutcome = .ok () ∧ b.describeInstance id = none) ∨
      b.termWaitOutcome = .error (.instanceNotFound id)) :
    waitForTermination b id =
      .ok { instanceId := id, state := some "terminated", wasAlreadyTerminated := false } := by
  unfold waitForTermination getInstanceDetails
  rcases h with ⟨h1, h2⟩ | h1
  · rw [h1, h2]
    simp [notFound_message_contains]
  · rw [h1]
    simp [notFound_message_contains]

/-- Witness for C7 at a backend that knows no instance. -/
theorem c7_witness :
    waitForTermination emptyBackend "i-0abc" =
      .ok { instanceId := "i-0abc", state := some "terminated", wasAlreadyTerminated := false } :=
  c7_waitForTermination_notFound emptyBackend "i-0abc" (Or.inl ⟨rfl, rfl⟩)

/-! ## C2: best-effort middle steps of the terminate workflow -/

/--
C2: In the terminate workflow, for every run in which stopping the DCV
session and/or detaching the storage volume fails but terminateInstance
succeeds, the workflow still returns success true, the detachVolumeState
field reflects the detach outcome (the reported detach state for a
structured failure such as detach-failed, the initial skipped value for a
thrown one), and the message still states the instance was terminated; the
stopDcv and detach outcomes are fully arbitrary in the first part.  Only a
failure of terminateInstance itself makes the workflow fail (second part).
-/
theorem c2_terminate_workflow_best_effort :
    (∀ (b : Ec2Backend) (env : TermEnv) (id uid : String) (d : InstanceDetails)
        (v : EbsVolume) (tr : TerminateResult),
      b.describeInstance id = some d →
      d.volumes.head? = some v →
      jsTruthy v.volumeId = true →
      (terminateInstance b id).1 = .ok tr →
      ∃ res, terminateWorkflow b env id uid = .ok res ∧
        res.success = true ∧
        res.detachVolumeState =
          some (match env.detach with | .ok dr => dr.state | .error _ => "skipped") ∧
        res.terminateInstanceState = tr.state ∧
        res.message = some ("Instance " ++ id ++ " terminated successfully.")) ∧
    (∀ (b : Ec2Backend) (env : TermEnv) (id uid : String) (e : Err),
      (terminateInstance b id).1 = .error e →
      terminateWorkflow b env id uid = .error e) := by
  constructor
  · intro b env id uid d v tr hd hv hvt ht
    unfold terminateWorkflow getInstanceDetails
    rw [hd, ht]
    refine ⟨_, rfl, rfl, ?_, rfl, rfl⟩
    simp [hv, hvt]
  · intro b env id uid e ht
    unfold terminateWorkflow
    rw [ht]

/-- Witness environment for C2: DCV stop fails structurally, detach reports a
failed state, the instance itself is running and terminates. -/
def c2Backend : Ec2Backend :=
  { describeInstance := fun _ =>
      some { state := some "running", volumes := [{ volumeId := some "vol-12345" }] },
    terminateResp := .ok (some { instanceId := some "i-0abc",
                                 currentState := some "shutting-down" }) }

/-- Witness environment for C2 (non-EC2 collaborators). -/
def c2Env : TermEnv :=
  { stopDcv := .ok { stoppedSuccessfully := false,
                     message := "DCV close-session failed: agent offline" },
    detach := .ok { volumeId := "vol-12345", instanceId := "i-0abc", state := "detach-failed" } }

/-- Witness for C2. -/
theorem c2_witness :
    ∃ res, terminateWorkflow c2Backend c2Env "i-0abc" "u1" = .ok res ∧
      res.success = true ∧
      res.detachVolumeState = some "detach-failed" ∧
      res.terminateInstanceState = some "shutting-down" ∧
      res.message = some ("Instance " ++ "i-0abc" ++ " terminated successfully.") :=
  c2_terminate_workflow_best_effort.1 c2Backend c2Env "i-0abc" "u1"
    { state := some "running", volumes := [{ volumeId := some "vol-12345" }] }
    { volumeId := some "vol-12345" }
    { instanceId := "i-0abc", state := some "shutting-down", wasAlreadyTerminated := false }
    rfl rfl rfl (by rfl)

/-! ## C8: structured result of the ConfigureDcvInstance handler -/

theorem configureDcvBody_success_iff (env : DcvEnv) :
    (configureDcvBody env).success =
      ((configureDcvBody env).passwordSet && (configureDcvBody env).sslConfigured) := by
  unfold configureDcvBody
  cases env.passwordCmd with
  | error e => simp [configureDcvCatch]
  | ok pr =>
    cases env.ieCmd with
    | error e => simp [configureDcvCatch]
    | ok r1 =>
      cases env.acmeSetupCmd with
      | error e => simp [configureDcvCatch]
      | ok r2 =>
        cases env.certCmd with
        | error e => simp [configureDcvCatch]
        | ok cr =>
          by_cases hcert : (containsSubstr "created" cr.output
              || containsSubstr "Certificate" cr.output) = true
          · simp only [hcert, if_true]
            cases env.copyCertCmd with
            | error e => simp [configureDcvCatch]
            | ok cp => simp [configureDcvFinish]
          · simp [hcert, configureDcvFinish]

/--
C8: For every invocation of the ConfigureDcvInstance handler with
instanceId, ip and password present (truthy), the handler returns a
structured result rather than throwing, the result carries the booleans
passwordSet and sslConfigured, and overall success is true exactly when both
booleans are true.  Partial failures, including an exception thrown during a
configuration step (an error outcome in the environment), reach this
structured result through the catch clause.
-/
theorem c8_configure_dcv_structured (instanceId dcvIp dcvPassword : String) (env : DcvEnv)
    (h1 : jsTruthyStr instanceId = true) (h2 : jsTruthyStr dcvIp = true)
    (h3 : jsTruthyStr dcvPassword = true) :
    ∃ r, configureDcvInstance instanceId dcvIp dcvPassword env = .ok r ∧
      r.success = (r.passwordSet && r.sslConfigured) := by
  refine ⟨configureDcvBody env, ?_, configureDcvBody_success_iff env⟩
  unfold configureDcvInstance
  rw [h1, h2, h3]
  simp

/-- Witness environment for C8: password set, certificate issued, but the
copy-and-restart step throws. -/
def c8Env : DcvEnv :=
  { passwordCmd := .ok { success := true, output := "Password set successfully", error := "" },
    ieCmd := .ok { success := true, output := "", error := "" },
    acmeSetupCmd := .ok { success := true, output := "win-acme ready", error := "" },
    certCmd := .ok { success := true, output := "Certificate created", error := "" },
    copyCertCmd := .error (.other "Error" "connection lost") }

/-- Witness for C8. -/
theorem c8_witness :
    ∃ r, configureDcvInstance "i-0abc" "1.2.3.4" "pw" c8Env = .ok r ∧
      r.success = (r.passwordSet && r.sslConfigured) :=
  c8_configure_dcv_structured "i-0abc" "1.2.3.4" "pw" c8Env (by decide) (by decide) (by decide)

/-! ## C4 and C5: the progress computation of the status aggregator -/

theorem roundPct_total (t : Nat) (ht : 0 < t) : roundPct t t = 100 := by
  unfold roundPct
  have he : 200 * t + t = t + 2 * t * 100 := by ring
  rw [he, Nat.add_mul_div_left _ _ (by omega : 0 < 2 * t), Nat.div_eq_of_lt (by omega)]

/-- The Nat-division formula of roundPct agrees with rounding the rational
percentage (Math.round of c / t * 100, which for non-negative values is
round-half-up). -/
theorem roundPct_eq_round (c t : Nat) (ht : 0 < t) :
    (roundPct c t : ℤ) = round ((c : ℚ) * 100 / (t : ℚ)) := by
  unfold roundPct
  have ht2 : (t : ℚ) ≠ 0 := Nat.cast_ne_zero.mpr (by omega)
  rw [round_eq]
  have h : (c : ℚ) * 100 / (t : ℚ) + 1 / 2 =
      (((200 * c + t : ℕ) : ℤ) : ℚ) / (((2 * t : ℕ) : ℕ) : ℚ) := by
    push_cast
    field_simp
    ring
  rw [h, Rat.floor_intCast_div_natCast]
  exact_mod_cast (Int.natCast_div (200 * c + t) (2 * t)).symm

/-- getStepInfoFromHistory unfolded to the explicit fold. -/
theorem getStepInfoFromHistory_def (evs : List HEvent) (b : Bool) :
    getStepInfoFromHistory evs b =
      stepFold (stepsFor b) evs
        ((stepsFor b).head?.getD { name := "", displayName := "", order := 0 }).name
        ((stepsFor b).head?.getD { name := "", displayName := "", order := 0 }).displayName
        1 [] := rfl

/-- Along the fold, totalSteps is always the static step count and progress
is always the rounded percentage of the completed count. -/
theorem stepFold_invariants (steps : List Step) (hpos : 0 < steps.length) :
    ∀ (evs : List HEvent) (cs csn : String) (sn : Nat) (completed : List String),
      (stepFold steps evs cs csn sn completed).totalSteps = steps.length ∧
      (stepFold steps evs cs csn sn completed).progress =
        roundPct (stepFold steps evs cs csn sn completed).completedSteps.length
          steps.length := by
  intro evs
  induction evs with
  | nil => intro cs csn sn completed; exact ⟨rfl, rfl⟩
  | cons e rest ih =>
    intro cs csn sn completed
    cases e with
    | stateEntered w name => simp only [stepFold]; exact ih _ _ _ _
    | stateExited w name => simp only [stepFold]; exact ih _ _ _ _
    | execSucceeded =>
      simp only [stepFold]
      refine ⟨rfl, ?_⟩
      simp [successInfo, roundPct_total steps.length hpos]
    | taskFailed x y z => simp only [stepFold]; exact ih _ _ _ _
    | execFailed x y => simp only [stepFold]; exact ih _ _ _ _
    | otherEvent => simp only [stepFold]; exact ih _ _ _ _

/-- A history containing an explicit success event always folds to the forced
success StepInfo, regardless of the loop state reached before it. -/
theorem stepFold_success (steps : List Step) :
    ∀ (evs : List HEvent) (cs csn : String) (sn : Nat) (completed : List String),
      HEvent.execSucceeded ∈ evs →
      stepFold steps evs cs csn sn completed = successInfo steps := by
  intro evs
  induction evs with
  | nil => intro _ _ _ _ h; exact absurd h (List.not_mem_nil _)
  | cons e rest ih =>
    intro cs csn sn completed h
    by_cases he : e = HEvent.execSucceeded
    · subst he; simp only [stepFold]
    · have ht : HEvent.execSucceeded ∈ rest := by
        rcases List.mem_cons.mp h with h1 | h1
        · exact absurd h1.symm he
        · exact h1
      cases e with
      | stateEntered w name => simp only [stepFold]; exact ih _ _ _ _ ht
      | stateExited w name => simp only [stepFold]; exact ih _ _ _ _ ht
      | execSucceeded => exact absurd rfl he
      | taskFailed x y z => simp only [stepFold]; exact ih _ _ _ _ ht
      | execFailed x y => simp only [stepFold]; exact ih _ _ _ _ ht
      | otherEvent => simp only [stepFold]; exact ih _ _ _ _ ht

theorem applyExited_length_le (name : Option String) (completed : List String) :
    completed.length ≤ (applyExited name completed).length := by
  cases name with
  | none => exact le_refl _
  | some n =>
    have hred : applyExited (some n) completed =
        if n != "" && !(completed.contains n) then completed ++ [n] else completed := rfl
    rw [hred]
    by_cases h : (n != "" && !(completed.contains n)) = true
    · rw [if_pos h]; simp
    · rw [if_neg h]

/-- applyExited either leaves the completed list unchanged or appends one
fresh truthy name. -/
theorem applyExited_eq_or (name : Option String) (completed : List String) :
    applyExited name completed = completed ∨
    ∃ n, name = some n ∧ (n != "") = true ∧ completed.contains n = false ∧
      applyExited name completed = completed ++ [n] := by
  cases name with
  | none => exact Or.inl rfl
  | some n =>
    have hred : applyExited (some n) completed =
        if n != "" && !(completed.contains n) then completed ++ [n] else completed := rfl
    rw [hred]
    by_cases h : (n != "" && !(completed.contains n)) = true
    · right
      have h2 := Bool.and_eq_true_iff.mp h
      refine ⟨n, rfl, h2.1, ?_, by rw [if_pos h]⟩
      simpa using h2.2
    · left; rw [if_neg h]

/-- The truthy exit names of a tail are exit names of the whole history. -/
theorem exitNames_tail_subset (e : HEvent) (rest : List HEvent) :
    ∀ m ∈ exitNames rest, m ∈ exitNames (e :: rest) := by
  intro m hm
  cases e with
  | stateEntered w name => simpa [exitNames] using hm
  | stateExited w name =>
    cases name with
    | none => simpa [exitNames] using hm
    | some n =>
      by_cases hn : (n != "") = true
      · simp only [exitNames, hn, if_true]
        exact List.mem_cons_of_mem _ hm
      · simp only [exitNames, hn, if_false]
        exact hm
  | execSucceeded => simpa [exitNames] using hm
  | taskFailed x y z => simpa [exitNames] using hm
  | execFailed x y => simpa [exitNames] using hm
  | otherEvent => simpa [exitNames] using hm

/-- Lower bound: the completed count at the end of the fold is at least any
bound below both the current accumulator length and the step count. -/
theorem stepFold_length_ge (steps : List Step) :
    ∀ (evs : List HEvent) (cs csn : String) (sn : Nat) (completed : List String) (L : Nat),
      L ≤ completed.length → L ≤ steps.length →
      L ≤ (stepFold steps evs cs csn sn completed).completedSteps.length := by
  intro evs
  induction evs with
  | nil =>
    intro cs csn sn completed L h1 h2
    simpa only [stepFold] using h1
  | cons e rest ih =>
    intro cs csn sn completed L h1 h2
    cases e with
    | stateEntered w name => simp only [stepFold]; exact ih _ _ _ _ _ h1 h2
    | stateExited w name =>
      simp only [stepFold]
      exact ih _ _ _ _ _ (le_trans h1 (applyExited_length_le name completed)) h2
    | execSucceeded =>
      simp only [stepFold]
      simpa [successInfo] using h2
    | taskFailed x y z => simp only [stepFold]; exact ih _ _ _ _ _ h1 h2
    | execFailed x y => simp only [stepFold]; exact ih _ _ _ _ _ h1 h2
    | otherEvent => simp only [stepFold]; exact ih _ _ _ _ _ h1 h2

/-- Upper bound: when every exited name of the history and every accumulated
name belongs to the (duplicate-free) static name list, the completed count
never exceeds the step count. -/
theorem stepFold_length_le (steps : List Step) :
    ∀ (evs : List HEvent) (cs csn : String) (sn : Nat) (completed : List String),
      (∀ n ∈ exitNames evs, n ∈ steps.map (fun s => s.name)) →
      completed.Nodup →
      (∀ n ∈ completed, n ∈ steps.map (fun s => s.name)) →
      (stepFold steps evs cs csn sn completed).completedSteps.length ≤ steps.length := by
  intro evs
  induction evs with
  | nil =>
    intro cs csn sn completed hex hnd2 hsub
    simp only [stepFold]
    calc completed.length ≤ (steps.map (fun s => s.name)).length :=
          (hnd2.subperm hsub).length_le
      _ = steps.length := by simp
  | cons e rest ih =>
    intro cs csn sn completed hex hnd2 hsub
    cases e with
    | stateEntered w name =>
      simp only [stepFold]
      exact ih _ _ _ _ (fun m hm => hex m (exitNames_tail_subset _ _ m hm)) hnd2 hsub
    | stateExited w name =>
      simp only [stepFold]
      rcases applyExited_eq_or name completed with heq | ⟨n, hname, hne, hc, heq⟩
      · rw [heq]
        exact ih _ _ _ _ (fun m hm => hex m (exitNames_tail_subset _ _ m hm)) hnd2 hsub
      · rw [heq]
        subst hname
        have hn_names : n ∈ steps.map (fun s => s.name) := by
          apply hex
          simp [exitNames, hne]
        have hnotmem : n ∉ completed := by simpa using hc
        refine ih _ _ _ _ (fun m hm => hex m (exitNames_tail_subset _ _ m hm)) ?_ ?_
        · simp [List.nodup_append, hnd2, hnotmem]
        · intro m hm
          rcases List.mem_append.mp hm with hm | hm
          · exact hsub m hm
          · have hmn : m = n := by simpa using hm
            subst hmn
            exact hn_names
    | execSucceeded =>
      simp only [stepFold]
      simp [successInfo]
    | taskFailed x y z =>
      simp only [stepFold]
      exact ih _ _ _ _ (fun m hm => hex m (exitNames_tail_subset _ _ m hm)) hnd2 hsub
    | execFailed x y =>
      simp only [stepFold]
      exact ih _ _ _ _ (fun m hm => hex m (exitNames_tail_subset _ _ m hm)) hnd2 hsub
    | otherEvent =>
      simp only [stepFold]
      exact ih _ _ _ _ (fun m hm => hex m (exitNames_tail_subset _ _ m hm)) hnd2 hsub

/-- Appending further events never decreases the completed count, as long as
the names already observed stay within the static list. -/
theorem stepFold_append_le (steps : List Step) :
    ∀ (evs1 evs2 : List HEvent) (cs csn : String) (sn : Nat) (completed : List String),
      (∀ n ∈ exitNames evs1, n ∈ steps.map (fun s => s.name)) →
      completed.Nodup →
      (∀ n ∈ completed, n ∈ steps.map (fun s => s.name)) →
      (stepFold steps evs1 cs csn sn completed).completedSteps.length ≤
        (stepFold steps (evs1 ++ evs2) cs csn sn completed).completedSteps.length := by
  intro evs1
  induction evs1 with
  | nil =>
    intro evs2 cs csn sn completed hex hnd2 hsub
    simp only [stepFold, List.nil_append]
    exact stepFold_length_ge steps evs2 cs csn sn completed completed.length le_rfl
      (le_trans (hnd2.subperm hsub).length_le (by simp))
  | cons e rest ih =>
    intro evs2 cs csn sn completed hex hnd2 hsub
    cases e with
    | stateEntered w name =>
      simp only [List.cons_append, stepFold]
      exact ih _ _ _ _ _ (fun m hm => hex m (exitNames_tail_subset _ _ m hm)) hnd2 hsub
    | stateExited w name =>
      simp only [List.cons_append, stepFold]
      rcases applyExited_eq_or name completed with heq | ⟨n, hname, hne, hc, heq⟩
      · rw [heq]
        exact ih _ _ _ _ _ (fun m hm => hex m (exitNames_tail_subset _ _ m hm)) hnd2 hsub
      · rw [heq]
        subst hname
        have hn_names : n ∈ steps.map (fun s => s.name) := by
          apply hex
          simp [exitNames, hne]
        have hnotmem : n ∉ completed := by simpa using hc
        refine ih _ _ _ _ _ (fun m hm => hex m (exitNames_tail_subset _ _ m hm)) ?_ ?_
        · simp [List.nodup_append, hnd2, hnotmem]
        · intro m hm
          rcases List.mem_append.mp hm with hm | hm
          · exact hsub m hm
          · have hmn : m = n := by simpa using hm
            subst hmn
            exact hn_names
    | execSucceeded =>
      simp only [List.cons_append, stepFold]
      exact le_rfl
    | taskFailed x y z =>
      simp only [List.cons_append, stepFold]
      exact ih _ _ _ _ _ (fun m hm => hex m (exitNames_tail_subset _ _ m hm)) hnd2 hsub
    | execFailed x y =>
      simp only [List.cons_append, stepFold]
      exact ih _ _ _ _ _ (fun m hm => hex m (exitNames_tail_subset _ _ m hm)) hnd2 hsub
    | otherEvent =>
      simp only [List.cons_append, stepFold]
      exact ih _ _ _ _ _ (fun m hm => hex m (exitNames_tail_subset _ _ m hm)) hnd2 hsub

/-- C4 counterexample history: five distinct exited state names in a
terminate execution, one more than the four-entry terminate step list. -/
def c4BadHistory : List HEvent :=
  [.stateExited false (some "CheckRunningStreams"),
   .stateExited false (some "TerminateEC2"),
   .stateExited false (some "UpdateRunningStreams"),
   .stateExited false (some "TerminationSuccess"),
   .stateExited false (some "ExtraCleanupState")]

/--
C4 counterexample: the claim states that for every execution event history
the completed count is at most total_steps (so progress never exceeds 100).
On the concrete history c4BadHistory, whose exited names include one outside
the static terminate step list, the aggregator counts five completed steps
against four total steps, and reports progress 125.
-/
theorem c4_counterexample :
    completedCount c4BadHistory true = 5 ∧
    (getStepInfoFromHistory c4BadHistory true).totalSteps = 4 ∧
    ¬ completedCount c4BadHistory true ≤ (getStepInfoFromHistory c4BadHistory true).totalSteps ∧
    (getStepInfoFromHistory c4BadHistory true).progress = 125 := by
  refine ⟨by decide, by decide, by decide, by decide⟩

/--
C4 (amended): provided every exited state name of the already-observed
history belongs to the static step list of the workflow, the completed count
computed by the status aggregator is non-decreasing when the history is
extended by arbitrary appended events, and never exceeds totalSteps.
-/
theorem c4_amended_monotone (b : Bool) (evs more : List HEvent)
    (h : ∀ n ∈ exitNames evs, n ∈ (stepsFor b).map (fun s => s.name)) :
    completedCount evs b ≤ completedCount (evs ++ more) b ∧
    completedCount evs b ≤ (getStepInfoFromHistory evs b).totalSteps := by
  have hpos : 0 < (stepsFor b).length := by cases b <;> decide
  unfold completedCount
  rw [getStepInfoFromHistory_def, getStepInfoFromHistory_def]
  constructor
  · exact stepFold_append_le _ evs more _ _ _ _ h List.nodup_nil (by simp)
  · rw [(stepFold_invariants (stepsFor b) hpos evs _ _ _ _).1]
    exact stepFold_length_le _ evs _ _ _ _ h List.nodup_nil (by simp)

/-- Witness history for C4 (amended). -/
def c4GoodHistory : List HEvent :=
  [.stateEntered false (some "CheckRunningStreams"),
   .stateExited false (some "CheckRunningStreams"),
   .stateEntered false (some "TerminateEC2")]

/-- Witness extension for C4 (amended). -/
def c4MoreHistory : List HEvent :=
  [.stateExited false (some "TerminateEC2"), .execSucceeded]

/-- Witness for C4 (amended). -/
theorem c4_witness :
    completedCount c4GoodHistory true ≤ completedCount (c4GoodHistory ++ c4MoreHistory) true ∧
    completedCount c4GoodHistory true ≤ (getStepInfoFromHistory c4GoodHistory true).totalSteps :=
  c4_amended_monotone true c4GoodHistory c4MoreHistory (by decide)

/--
C5: For every execution event history, the aggregator computes progress as
the rounded percentage of completed steps over total steps (round of
completed div total times 100); and whenever the history contains an explicit
success event, the result is forced to current step equal to the last step of
the static list, completed steps equal to the whole list, and progress 100.
-/
theorem c5_progress_round_success (evs : List HEvent) (b : Bool) :
    ((getStepInfoFromHistory evs b).progress : ℤ) =
      round (((getStepInfoFromHistory evs b).completedSteps.length : ℚ) * 100 /
        ((getStepInfoFromHistory evs b).totalSteps : ℚ)) ∧
    (HEvent.execSucceeded ∈ evs →
      (getStepInfoFromHistory evs b).currentStep =
        ((stepsFor b).getLast?.getD { name := "", displayName := "", order := 0 }).name ∧
      (getStepInfoFromHistory evs b).completedSteps = (stepsFor b).map (fun s => s.name) ∧
      (getStepInfoFromHistory evs b).progress = 100) := by
  have hpos : 0 < (stepsFor b).length := by cases b <;> decide
  constructor
  · rw [getStepInfoFromHistory_def]
    have hinv := stepFold_invariants (stepsFor b) hpos evs
      ((stepsFor b).head?.getD { name := "", displayName := "", order := 0 }).name
      ((stepsFor b).head?.getD { name := "", displayName := "", order := 0 }).displayName 1 []
    rw [hinv.2, hinv.1]
    exact roundPct_eq_round _ _ hpos
  · intro hmem
    rw [getStepInfoFromHistory_def, stepFold_success (stepsFor b) evs _ _ _ _ hmem]
    exact ⟨rfl, rfl, rfl⟩

/-- Witness history for C5 containing an explicit success event. -/
def c5Evs : List HEvent :=
  [.stateExited false (some "DeployEC2"), .execSucceeded]

/-- Witness for C5. -/
theorem c5_witness :
    HEvent.execSucceeded ∈ c5Evs ∧
    (getStepInfoFromHistory c5Evs false).progress = 100 ∧
    (getStepInfoFromHistory c5Evs false).completedSteps = DEPLOY_STEPS.map (fun s => s.name) :=
  ⟨by decide, ((c5_progress_round_success c5Evs false).2 (by decide)).2.2,
    ((c5_progress_round_success c5Evs false).2 (by decide)).2.1⟩

/-! ## C6: the two SSM wait primitives -/

/-- A non-terminal poll (in progress, or invocation not yet visible) makes one
waitForCommand iteration move on to the next poll. -/
theorem waitForCommandAux_step (trace : Nat → Except Err InvocationResp)
    (timeoutMs k fuel : Nat) (hk : k * 5000 < timeoutMs)
    (hnt : cfgNonTerminal (trace k) = true) :
    waitForCommandAux trace timeoutMs k (fuel + 1) =
      waitForCommandAux trace timeoutMs (k + 1) fuel := by
  simp only [waitForCommandAux]
  rw [if_pos hk]
  cases htr : trace k with
  | ok r =>
    rw [htr] at hnt
    rw [show cfgNonTerminal (Except.ok r) =
      !(r.status == some "Success" || r.status == some "Failed"
        || r.status == some "Cancelled" || r.status == some "TimedOut") from rfl,
      Bool.not_eq_true'] at hnt
    obtain ⟨h123, h4⟩ := Bool.or_eq_false_iff.mp hnt
    obtain ⟨h12, h3⟩ := Bool.or_eq_false_iff.mp h123
    obtain ⟨h1, h2⟩ := Bool.or_eq_false_iff.mp h12
    simp [h1, h2, h3, h4]
  | error e =>
    rw [htr] at hnt
    rw [show cfgNonTerminal (Except.error e) =
      (errName e == "InvocationDoesNotExist") from rfl] at hnt
    simp [hnt]

/-- When every poll the agent answers is non-terminal, waitForCommand ends in
the timed-out result (success false, error Command timed out), whatever the
deadline is. -/
theorem waitForCommandAux_all_nonterminal (trace : Nat → Except Err InvocationResp)
    (timeoutMs : Nat) (h : ∀ k, cfgNonTerminal (trace k) = true) :
    ∀ (fuel k : Nat), waitForCommandAux trace timeoutMs k fuel = .ok cmdTimedOut := by
  intro fuel
  induction fuel with
  | zero => intro k; rfl
  | succ fuel ih =>
    intro k
    by_cases hk : k * 5000 < timeoutMs
    · rw [waitForCommandAux_step trace timeoutMs k fuel hk (h k)]
      exact ih (k + 1)
    · simp only [waitForCommandAux]
      rw [if_neg hk]

/-- When the first terminal poll is a Success inside the deadline, every
earlier not-yet-visible or in-progress poll is retried and the call returns
the captured output. -/
theorem waitForCommandAux_first_success (trace : Nat → Except Err InvocationResp)
    (timeoutMs k : Nat) (r : InvocationResp)
    (hbefore : ∀ j, j < k → cfgNonTerminal (trace j) = true)
    (hk : k * 5000 < timeoutMs) (htr : trace k = .ok r) (hs : r.status = some "Success") :
    ∀ (fuel k0 : Nat), k0 ≤ k → k < fuel + k0 →
      waitForCommandAux trace timeoutMs k0 fuel =
        .ok { success := true, output := jsOr r.stdout "", error := jsOr r.stderr "" } := by
  intro fuel
  induction fuel with
  | zero => intro k0 h1 h2; omega
  | succ fuel ih =>
    intro k0 h1 h2
    by_cases hek : k0 = k
    · subst hek
      simp only [waitForCommandAux]
      rw [if_pos hk, htr]
      have hcond : (r.status == some "Success") = true := by rw [hs]; rfl
      simp [hcond]
    · have hlt : k0 < k := lt_of_le_of_ne h1 hek
      have hk0 : k0 * 5000 < timeoutMs :=
        lt_of_le_of_lt (Nat.mul_le_mul_right 5000 (le_of_lt hlt)) hk
      rw [waitForCommandAux_step trace timeoutMs k0 fuel hk0 (hbefore k0 hlt)]
      exact ih (k0 + 1) (by omega) (by omega)

/-- When the first terminal poll reports Failed, Cancelled or TimedOut inside
the deadline, every earlier not-yet-visible or in-progress poll is retried
and the call stops with the structured failure outcome of that status. -/
theorem waitForCommandAux_first_failure (trace : Nat → Except Err InvocationResp)
    (timeoutMs k : Nat) (r : InvocationResp) (s : String)
    (hbefore : ∀ j, j < k → cfgNonTerminal (trace j) = true)
    (hk : k * 5000 < timeoutMs) (htr : trace k = .ok r) (hs : r.status = some s)
    (hfail : s = "Failed" ∨ s = "Cancelled" ∨ s = "TimedOut") :
    ∀ (fuel k0 : Nat), k0 ≤ k → k < fuel + k0 →
      waitForCommandAux trace timeoutMs k0 fuel =
        .ok { success := false, output := jsOr r.stdout "",
              error := jsOr r.stderr (jsOr r.statusDetails "Command failed") } := by
  intro fuel
  induction fuel with
  | zero => intro k0 h1 h2; omega
  | succ fuel ih =>
    intro k0 h1 h2
    by_cases hek : k0 = k
    · subst hek
      simp only [waitForCommandAux]
      rw [if_pos hk, htr]
      have hc1 : (r.status == some "Success") = false := by
        rw [hs]
        rcases hfail with h | h | h <;> rw [h] <;> rfl
      have hc2 : (r.status == some "Failed" || r.status == some "Cancelled"
          || r.status == some "TimedOut") = true := by
        rw [hs]
        rcases hfail with h | h | h <;> rw [h] <;> rfl
      simp [hc1, hc2]
    · have hlt : k0 < k := lt_of_le_of_ne h1 hek
      have hk0 : k0 * 5000 < timeoutMs :=
        lt_of_le_of_lt (Nat.mul_le_mul_right 5000 (le_of_lt hlt)) hk
      rw [waitForCommandAux_step trace timeoutMs k0 fuel hk0 (hbefore k0 hlt)]
      exact ih (k0 + 1) (by omega) (by omega)

/-- A non-terminal status inside the deadline makes one waitForSSMCommand
iteration move on to the next poll. -/
theorem waitForSSMCommandAux_step (backend : Nat → AgentPoll) (maxWaitMs : Nat)
    (commandId : String) (k fuel : Nat) (hk : ¬ maxWaitMs < k * 10000)
    (hnt : agentNonTerminal (backend k) = true) :
    waitForSSMCommandAux backend maxWaitMs commandId k (fuel + 1) =
      waitForSSMCommandAux backend maxWaitMs commandId (k + 1) fuel := by
  simp only [waitForSSMCommandAux]
  cases hb : backend k with
  | status s =>
    rw [hb] at hnt
    rw [show agentNonTerminal (AgentPoll.status s) =
      !(s == "Success" || s == "Failed" || s == "Cancelled" || s == "TimedOut") from rfl,
      Bool.not_eq_true'] at hnt
    obtain ⟨h123, h4⟩ := Bool.or_eq_false_iff.mp hnt
    obtain ⟨h12, h3⟩ := Bool.or_eq_false_iff.mp h123
    obtain ⟨h1, h2⟩ := Bool.or_eq_false_iff.mp h12
    simp [getCommandStatus, h1, h2, h3, h4, if_neg hk]
  | notVisible =>
    simp [getCommandStatus, if_neg hk]
  | failure e =>
    rw [hb] at hnt
    simp [agentNonTerminal] at hnt

/-- When every status the agent reports is non-terminal, waitForSSMCommand
ends in the timeout error. -/
theorem waitForSSMCommandAux_all_nonterminal (backend : Nat → AgentPoll) (maxWaitMs : Nat)
    (commandId : String) (h : ∀ k, agentNonTerminal (backend k) = true) :
    ∀ (fuel k : Nat),
      waitForSSMCommandAux backend maxWaitMs commandId k fuel =
        .error (.ssmTimeout commandId) := by
  intro fuel
  induction fuel with
  | zero => intro k; rfl
  | succ fuel ih =>
    intro k
    by_cases hk : maxWaitMs < k * 10000
    · simp only [waitForSSMCommandAux]
      cases hb : backend k with
      | status s =>
        have hnt := h k
        rw [hb] at hnt
        rw [show agentNonTerminal (AgentPoll.status s) =
          !(s == "Success" || s == "Failed" || s == "Cancelled" || s == "TimedOut") from rfl,
          Bool.not_eq_true'] at hnt
        obtain ⟨h123, h4⟩ := Bool.or_eq_false_iff.mp hnt
        obtain ⟨h12, h3⟩ := Bool.or_eq_false_iff.mp h123
        obtain ⟨h1, h2⟩ := Bool.or_eq_false_iff.mp h12
        simp [getCommandStatus, h1, h2, h3, h4, if_pos hk]
      | notVisible =>
        simp [getCommandStatus, if_pos hk]
      | failure e =>
        have hnt := h k
        rw [hb] at hnt
        simp [agentNonTerminal] at hnt
    · rw [waitForSSMCommandAux_step backend maxWaitMs commandId k fuel hk (h k)]
      exact ih (k + 1)

/-- When the first terminal status is Success and the deadline was not yet
exceeded at the earlier polls, waitForSSMCommand returns success, retrying
through every earlier non-terminal (including not-yet-visible) poll. -/
theorem waitForSSMCommandAux_first_success (backend : Nat → AgentPoll) (maxWaitMs : Nat)
    (commandId : String) (k : Nat)
    (hbefore : ∀ j, j < k → agentNonTerminal (backend j) = true)
    (htime : ∀ j, j < k → j * 10000 ≤ maxWaitMs)
    (hb : backend k = .status "Success") :
    ∀ (fuel k0 : Nat), k0 ≤ k → k < fuel + k0 →
      waitForSSMCommandAux backend maxWaitMs commandId k0 fuel = .ok () := by
  intro fuel
  induction fuel with
  | zero => intro k0 h1 h2; omega
  | succ fuel ih =>
    intro k0 h1 h2
    by_cases hek : k0 = k
    · subst hek
      simp only [waitForSSMCommandAux, hb, getCommandStatus]
      simp
    · have hlt : k0 < k := lt_of_le_of_ne h1 hek
      have hk0 : ¬ maxWaitMs < k0 * 10000 := by
        have := htime k0 hlt
        omega
      rw [waitForSSMCommandAux_step backend maxWaitMs commandId k0 fuel hk0 (hbefore k0 hlt)]
      exact ih (k0 + 1) (by omega) (by omega)

/-- When the first terminal status is Failed, Cancelled or TimedOut and the
deadline was not yet exceeded at the earlier polls, waitForSSMCommand stops
with the SSM-command-failed error for that status, retrying through every
earlier non-terminal (including not-yet-visible) poll. -/
theorem waitForSSMCommandAux_first_failure (backend : Nat → AgentPoll) (maxWaitMs : Nat)
    (commandId : String) (k : Nat) (s : String)
    (hbefore : ∀ j, j < k → agentNonTerminal (backend j) = true)
    (htime : ∀ j, j < k → j * 10000 ≤ maxWaitMs)
    (hb : backend k = .status s)
    (hfail : s = "Failed" ∨ s = "Cancelled" ∨ s = "TimedOut") :
    ∀ (fuel k0 : Nat), k0 ≤ k → k < fuel + k0 →
      waitForSSMCommandAux backend maxWaitMs commandId k0 fuel =
        .error (.ssmCommandFailed s) := by
  intro fuel
  induction fuel with
  | zero => intro k0 h1 h2; omega
  | succ fuel ih =>
    intro k0 h1 h2
    by_cases hek : k0 = k
    · subst hek
      simp only [waitForSSMCommandAux, hb, getCommandStatus]
      have hc1 : (s == "Success") = false := by
        rcases hfail with h | h | h <;> rw [h] <;> rfl
      have hc2 : (s == "Failed" || s == "Cancelled" || s == "TimedOut") = true := by
        rcases hfail with h | h | h <;> rw [h] <;> rfl
      simp [hc1, hc2]
    · have hlt : k0 < k := lt_of_le_of_ne h1 hek
      have hk0 : ¬ maxWaitMs < k0 * 10000 := by
        have := htime k0 hlt
        omega
      rw [waitForSSMCommandAux_step backend maxWaitMs commandId k0 fuel hk0 (hbefore k0 hlt)]
      exact ih (k0 + 1) (by omega) (by omega)

/--
C6: Both wait primitives poll at a fixed interval until a terminal status in
Success, Failed, Cancelled, TimedOut: a not-yet-visible invocation (and any
other non-terminal answer) causes a retry rather than a failure, the loop
stops at the first terminal status reached (with the captured output on
Success, and with the structured failure outcome or thrown SSM-command-failed
error on Failed, Cancelled or TimedOut), and when the polls stay non-terminal
past the deadline the call yields a command-timed-out outcome instead of
success.  Parts one to three state this for the ConfigureDcvInstance
waitForCommand (timeout result; success after non-terminal polls; failure
stop on Failed, Cancelled or TimedOut); parts four to six state it for the
DCV wrapper waitForSSMCommand.
-/
theorem c6_wait_primitives :
    (∀ (trace : Nat → Except Err InvocationResp) (timeoutMs : Nat),
      (∀ k, cfgNonTerminal (trace k) = true) →
      waitForCommand trace timeoutMs = .ok cmdTimedOut) ∧
    (∀ (trace : Nat → Except Err InvocationResp) (timeoutMs k : Nat) (r : InvocationResp),
      (∀ j, j < k → cfgNonTerminal (trace j) = true) →
      k * 5000 < timeoutMs → trace k = .ok r → r.status = some "Success" →
      waitForCommand trace timeoutMs =
        .ok { success := true, output := jsOr r.stdout "", error := jsOr r.stderr "" }) ∧
    (∀ (trace : Nat → Except Err InvocationResp) (timeoutMs k : Nat) (r : InvocationResp)
        (s : String),
      (∀ j, j < k → cfgNonTerminal (trace j) = true) →
      k * 5000 < timeoutMs → trace k = .ok r → r.status = some s →
      (s = "Failed" ∨ s = "Cancelled" ∨ s = "TimedOut") →
      waitForCommand trace timeoutMs =
        .ok { success := false, output := jsOr r.stdout "",
              error := jsOr r.stderr (jsOr r.statusDetails "Command failed") }) ∧
    (∀ (backend : Nat → AgentPoll) (commandId : String) (maxWaitSeconds : Nat),
      (∀ k, agentNonTerminal (backend k) = true) →
      waitForSSMCommand backend commandId maxWaitSeconds = .error (.ssmTimeout commandId)) ∧
    (∀ (backend : Nat → AgentPoll) (commandId : String) (maxWaitSeconds k : Nat),
      (∀ j, j < k → agentNonTerminal (backend j) = true) →
      (∀ j, j < k → j * 10000 ≤ maxWaitSeconds * 1000) →
      backend k = .status "Success" →
      waitForSSMCommand backend commandId maxWaitSeconds = .ok ()) ∧
    (∀ (backend : Nat → AgentPoll) (commandId : String) (maxWaitSeconds k : Nat) (s : String),
      (∀ j, j < k → agentNonTerminal (backend j) = true) →
      (∀ j, j < k → j * 10000 ≤ maxWaitSeconds * 1000) →
      backend k = .status s →
      (s = "Failed" ∨ s = "Cancelled" ∨ s = "TimedOut") →
      waitForSSMCommand backend commandId maxWaitSeconds =
        .error (.ssmCommandFailed s)) := by
  refine ⟨?_, ?_, ?_, ?_, ?_, ?_⟩
  · intro trace timeoutMs h
    exact waitForCommandAux_all_nonterminal trace timeoutMs h _ 0
  · intro trace timeoutMs k r hbefore hk htr hs
    have hfuel : k < timeoutMs / 5000 + 2 + 0 := by
      have : k ≤ timeoutMs / 5000 := (Nat.le_div_iff_mul_le (by omega)).mpr (by omega)
      omega
    exact waitForCommandAux_first_success trace timeoutMs k r hbefore hk htr hs _ 0
      (Nat.zero_le k) hfuel
  · intro trace timeoutMs k r s hbefore hk htr hs hfail
    have hfuel : k < timeoutMs / 5000 + 2 + 0 := by
      have : k ≤ timeoutMs / 5000 := (Nat.le_div_iff_mul_le (by omega)).mpr (by omega)
      omega
    exact waitForCommandAux_first_failure trace timeoutMs k r s hbefore hk htr hs hfail _ 0
      (Nat.zero_le k) hfuel
  · intro backend commandId maxWaitSeconds h
    exact waitForSSMCommandAux_all_nonterminal backend (maxWaitSeconds * 1000) commandId h _ 0
  · intro backend commandId maxWaitSeconds k hbefore htime hb
    have hfuel : k < maxWaitSeconds * 1000 / 10000 + 2 + 0 := by
      cases k with
      | zero => omega
      | succ k1 =>
        have h1 : k1 * 10000 ≤ maxWaitSeconds * 1000 := htime k1 (by omega)
        have : k1 ≤ maxWaitSeconds * 1000 / 10000 :=
          (Nat.le_div_iff_mul_le (by omega)).mpr h1
        omega
    exact waitForSSMCommandAux_first_success backend (maxWaitSeconds * 1000) commandId k
      hbefore htime hb _ 0 (Nat.zero_le k) hfuel
  · intro backend commandId maxWaitSeconds k s hbefore htime hb hfail
    have hfuel : k < maxWaitSeconds * 1000 / 10000 + 2 + 0 := by
      cases k with
      | zero => omega
      | succ k1 =>
        have h1 : k1 * 10000 ≤ maxWaitSeconds * 1000 := htime k1 (by omega)
        have : k1 ≤ maxWaitSeconds * 1000 / 10000 :=
          (Nat.le_div_iff_mul_le (by omega)).mpr h1
        omega
    exact waitForSSMCommandAux_first_failure backend (maxWaitSeconds * 1000) commandId k s
      hbefore htime hb hfail _ 0 (Nat.zero_le k) hfuel

/-- Witness trace for C6: the invocation never becomes visible. -/
def traceNotVisible : Nat → Except Err InvocationResp :=
  fun _ => .error .invocationDoesNotExist

/-- Witness trace for C6: not visible on the first poll, then Success. -/
def traceSuccessAfterRetry : Nat → Except Err InvocationResp :=
  fun k => if k == 0 then .error .invocationDoesNotExist
    else .ok { status := some "Success", stdout := some "done" }

/-- Witness agent for C6: always pending. -/
def agentAllPending : Nat → AgentPoll := fun _ => .notVisible

/-- Witness agent for C6: not visible on the first poll, then Success. -/
def agentSuccessAfterRetry : Nat → AgentPoll :=
  fun k => if k == 0 then .notVisible else .status "Success"

/-- Witness trace for C6: not visible on the first poll, then Failed. -/
def traceFailedAfterRetry : Nat → Except Err InvocationResp :=
  fun k => if k == 0 then .error .invocationDoesNotExist
    else .ok { status := some "Failed", stderr := some "script exited 1" }

/-- Witness agent for C6: not visible on the first poll, then Cancelled. -/
def agentCancelledAfterRetry : Nat → AgentPoll :=
  fun k => if k == 0 then .notVisible else .status "Cancelled"

/-- Witness for C6. -/
theorem c6_witness :
    waitForCommand traceNotVisible 120000 = .ok cmdTimedOut ∧
    waitForCommand traceSuccessAfterRetry 120000 =
      .ok { success := true, output := "done", error := "" } ∧
    waitForCommand traceFailedAfterRetry 120000 =
      .ok { success := false, output := "", error := "script exited 1" } ∧
    waitForSSMCommand agentAllPending "cmd-1" 60 = .error (.ssmTimeout "cmd-1") ∧
    waitForSSMCommand agentSuccessAfterRetry "cmd-1" 60 = .ok () ∧
    waitForSSMCommand agentCancelledAfterRetry "cmd-1" 60 =
      .error (.ssmCommandFailed "Cancelled") := by
  refine ⟨?_, ?_, ?_, ?_, ?_, ?_⟩
  · exact c6_wait_primitives.1 traceNotVisible 120000 (fun k => rfl)
  · exact c6_wait_primitives.2.1 traceSuccessAfterRetry 120000 1
      { status := some "Success", stdout := some "done" } (by decide) (by decide) rfl rfl
  · exact c6_wait_primitives.2.2.1 traceFailedAfterRetry 120000 1
      { status := some "Failed", stderr := some "script exited 1" } "Failed"
      (by decide) (by decide) rfl rfl (Or.inl rfl)
  · exact c6_wait_primitives.2.2.2.1 agentAllPending "cmd-1" 60 (fun k => rfl)
  · exact c6_wait_primitives.2.2.2.2.1 agentSuccessAfterRetry "cmd-1" 60 1
      (by decide) (by decide) rfl
  · exact c6_wait_primitives.2.2.2.2.2 agentCancelledAfterRetry "cmd-1" 60 1 "Cancelled"
      (by decide) (by decide) rfl (Or.inr (Or.inl rfl))

/-! ## C9: missing-execution handling of the status aggregator -/

/--
C9 (amended): getDeploymentStatus never throws for a missing execution (the
embedding is a total function into responses, with every collaborator error
converted to a response).  When there is no instance record for the user, or
no executionArn on the record, it reports NOT_FOUND (404).  But when the
recorded executionArn has no execution behind it (DescribeExecution fails),
the outer catch clause returns a 500 response with status FAILED, not
NOT_FOUND; likewise for a failing registry query.
-/
theorem c9_amended_missing_execution (env : StatusEnv) (userId : String) :
    (env.queryResult = .ok [] →
      (handleDeploymentStatus env userId).status = "NOT_FOUND" ∧
      (handleDeploymentStatus env userId).statusCode = 404) ∧
    (∀ ri rest, env.queryResult = .ok (ri :: rest) → jsTruthy ri.executionArn = false →
      (handleDeploymentStatus env userId).status = "NOT_FOUND" ∧
      (handleDeploymentStatus env userId).statusCode = 404) ∧
    (∀ ri rest e, env.queryResult = .ok (ri :: rest) → jsTruthy ri.executionArn = true →
      env.describeResult = .error e →
      (handleDeploymentStatus env userId).status = "FAILED" ∧
      (handleDeploymentStatus env userId).statusCode = 500) ∧
    (∀ e, env.queryResult = .error e →
      (handleDeploymentStatus env userId).status = "FAILED" ∧
      (handleDeploymentStatus env userId).statusCode = 500) := by
  refine ⟨?_, ?_, ?_, ?_⟩
  · intro h
    unfold handleDeploymentStatus
    rw [h]
    exact ⟨rfl, rfl⟩
  · intro ri rest h harn
    unfold handleDeploymentStatus
    rw [h]
    simp [harn]
  · intro ri rest e h harn hdesc
    unfold handleDeploymentStatus
    rw [h]
    simp [harn, hdesc, catchResponse]
  · intro e h
    unfold handleDeploymentStatus
    rw [h]
    exact ⟨rfl, rfl⟩

/-- C9 counterexample record: a user whose record carries a dangling
execution ARN. -/
def c9Record : InstRecord :=
  { instanceId := "i-0abc", userId := "u1",
    executionArn :=
      some "arn:aws:states:us-east-1:123456789012:execution:UserDeployEC2Workflow:u1-1700000000000",
    status := "deploying" }

/-- C9 counterexample environment: the recorded execution does not exist. -/
def c9Env : StatusEnv :=
  { queryResult := .ok [c9Record],
    describeResult := .error (.other "ExecutionDoesNotExist" "Execution Does Not Exist"),
    historyResult := .ok [] }

/--
C9 counterexample: the claim says a missing execution behind the recorded
executionArn is reported as NOT_FOUND; on the concrete environment c9Env the
handler instead answers a 500 response with status FAILED.
-/
theorem c9_counterexample :
    (handleDeploymentStatus c9Env "u1").status = "FAILED" ∧
    (handleDeploymentStatus c9Env "u1").statusCode = 500 ∧
    ¬ (handleDeploymentStatus c9Env "u1").status = "NOT_FOUND" := by
  refine ⟨rfl, rfl, by decide⟩

/-- C9 witness environment: no record at all for the user. -/
def c9EmptyEnv : StatusEnv :=
  { queryResult := .ok [], describeResult := .ok {}, historyResult := .ok [] }

/-- Witness for C9 (amended). -/
theorem c9_witness :
    (handleDeploymentStatus c9EmptyEnv "u1").status = "NOT_FOUND" ∧
    (handleDeploymentStatus c9EmptyEnv "u1").statusCode = 404 :=
  (c9_amended_missing_execution c9EmptyEnv "u1").1 rfl

/-! ## C10: terminate detection by ARN substring -/

/-- The deploy execution ARN of the C10 scenario: a deploy started for a
userId containing the word Terminate. -/
def c10Arn : String := mockDeployExecutionArn "TerminateFan" 1700000000000

/-- The registry record tracking that deploy execution. -/
def c10Record : InstRecord :=
  { instanceId := "i-0abc", userId := "TerminateFan",
    executionArn := some c10Arn, status := "running" }

/-- C10 environment with the deploy execution succeeded. -/
def c10SucceededEnv : StatusEnv :=
  { queryResult := .ok [c10Record],
    describeResult := .ok { executionArn := some c10Arn, status := some "SUCCEEDED" },
    historyResult := .ok [] }

/-- C10 environment with the deploy execution still running. -/
def c10RunningEnv : StatusEnv :=
  { queryResult := .ok [c10Record],
    describeResult := .ok { executionArn := some c10Arn, status := some "RUNNING" },
    historyResult := .ok [] }

/--
C10: The aggregator decides whether the tracked execution is a terminate
workflow solely by whether the execution ARN contains the substring
Terminate.  Since the execution name embeds the userId, the deploy execution
ARN of the user TerminateFan contains that substring, and the aggregator then
reports the terminate step list (four total steps, first display name
Checking running streams rather than the deploy-list entry Checking existing
streams) and, on success, the Instance-has-been-terminated payload with
deploymentStatus terminated instead of the deploy payload.  For a userId not
containing the substring the same deploy ARN shape is not treated as a
terminate workflow.
-/
theorem c10_terminate_substring_confusion :
    containsSubstr "Terminate" c10Arn = true ∧
    containsSubstr "Terminate" (mockDeployExecutionArn "alice" 1700000000000) = false ∧
    (handleDeploymentStatus c10SucceededEnv "TerminateFan").message =
      "Instance has been terminated" ∧
    (handleDeploymentStatus c10SucceededEnv "TerminateFan").deploymentStatus =
      some "terminated" ∧
    (handleDeploymentStatus c10RunningEnv "TerminateFan").totalSteps =
      some TERMINATE_STEPS.length ∧
    (handleDeploymentStatus c10RunningEnv "TerminateFan").message =
      "Checking running streams" := by
  refine ⟨by decide, by decide, by decide, by decide, by decide, by decide⟩

/-! ## C3: placeholder-to-real-id swap of PersistSessionRecord -/

/--
C3: For every deploy workflow run that completes the PersistSessionRecord
step (the UpdateRunningStreams handler), starting from a registry state in
which the only placeholder record of the user is the one of this execution,
afterwards the StreamingSession record keyed by the final (non-placeholder)
instance identifier exists (exactly one, the streams registry being keyed by
instanceArn), zero placeholder GamingInstance records remain for the user,
and executionArn and creationTime are carried from the placeholder onto the
real-id record.
-/
theorem c3_persist_session_swap (st : DbState) (ev : UpdateStreamsEvent) (now : String)
    (old : InstRecord)
    (hArn : jsTruthyStr ev.instanceArn = true)
    (hGet : st.instances.filter (isPlaceholderOf ev.userId) = [old])
    (hReal : strStartsWith "pending-" ev.instanceId = false)
    (hCt : old.creationTime ≠ "") :
    ∃ st1, updateRunningStreams st ev now true true = .ok (st1, true, ev.instanceId) ∧
      (∃ rec, st1.streams ev.instanceArn = some rec ∧
        rec.instanceId = ev.instanceId ∧ rec.userId = ev.userId) ∧
      st1.instances.filter (isPlaceholderOf ev.userId) = [] ∧
      (∃ rec2, lookupInstance st1.instances ev.instanceId = some rec2 ∧
        rec2.executionArn = old.executionArn ∧
        rec2.creationTime = old.creationTime ∧
        rec2.status = "running") := by
  have hinst : persistInstances st ev now true =
      ({ instanceId := ev.instanceId, userId := ev.userId,
         executionArn := old.executionArn, status := "running",
         creationTime := jsOrStr old.creationTime now,
         lastModifiedTime := now } : InstRecord)
        :: (st.instances.filter (fun r => !(r.instanceId == old.instanceId))).filter
            (fun r => !(r.instanceId == ev.instanceId)) := by
    unfold persistInstances
    rw [hGet]
    rfl
  refine ⟨⟨persistStreams st ev now, persistInstances st ev now true⟩,
    ?hrun, ?hstream, ?hplace, ?hlookup⟩
  case hrun =>
    unfold updateRunningStreams
    rw [hArn]
    rfl
  case hstream =>
    refine ⟨persistPayload st ev now, ?_, rfl, rfl⟩
    unfold persistStreams
    simp
  case hplace =>
    show (persistInstances st ev now true).filter (isPlaceholderOf ev.userId) = []
    rw [hinst, List.filter_cons]
    have hnew : isPlaceholderOf ev.userId
        { instanceId := ev.instanceId, userId := ev.userId,
          executionArn := old.executionArn, status := "running",
          creationTime := jsOrStr old.creationTime now, lastModifiedTime := now } = false := by
      simp [isPlaceholderOf, hReal]
    rw [hnew]
    simp only [Bool.false_eq_true, if_false]
    rw [List.filter_eq_nil_iff]
    intro a ha hpa
    have ha2 := List.mem_filter.mp ha
    have ha3 := List.mem_filter.mp ha2.1
    have hmem : a ∈ st.instances.filter (isPlaceholderOf ev.userId) :=
      List.mem_filter.mpr ⟨ha3.1, hpa⟩
    rw [hGet] at hmem
    have haold : a = old := by simpa using hmem
    subst haold
    have hcontra := ha3.2
    simp at hcontra
  case hlookup =>
    refine ⟨{ instanceId := ev.instanceId, userId := ev.userId,
              executionArn := old.executionArn, status := "running",
              creationTime := jsOrStr old.creationTime now,
              lastModifiedTime := now }, ?_, rfl, ?_, rfl⟩
    · show lookupInstance (persistInstances st ev now true) ev.instanceId = _
      rw [hinst]
      unfold lookupInstance
      simp
    · show jsOrStr old.creationTime now = old.creationTime
      unfold jsOrStr
      rw [if_neg hCt]

/-- C3 witness state: one placeholder record for the user, one untouched
record of another user, and an empty streams registry. -/
def c3Placeholder : InstRecord :=
  placeholderRecord "u1"
    "arn:aws:states:us-east-1:123456789012:execution:UserDeployEC2Workflow:u1-1700000000000"
    "u1-1700000000000" "2026-01-01T00:00:00.000Z"

/-- C3 witness registry state. -/
def c3State : DbState :=
  { streams := fun _ => none,
    instances := [c3Placeholder,
      { instanceId := "i-other", userId := "u2", status := "running" }] }

/-- C3 witness event: the deploy finished on instance i-0abc. -/
def c3Event : UpdateStreamsEvent :=
  { userId := "u1", instanceId := "i-0abc",
    instanceArn := "arn:aws:ec2:us-east-1:123456789012:instance/i-0abc",
    dcvIp := "52.10.20.30", dcvPort := 8443, dcvUser := "Administrator",
    dcvPassword := "secret" }

/-- Witness for C3. -/
theorem c3_witness :
    ∃ st1, updateRunningStreams c3State c3Event "2026-01-01T00:10:00.000Z" true true =
        .ok (st1, true, c3Event.instanceId) ∧
      (∃ rec, st1.streams c3Event.instanceArn = some rec ∧
        rec.instanceId = c3Event.instanceId ∧ rec.userId = c3Event.userId) ∧
      st1.instances.filter (isPlaceholderOf c3Event.userId) = [] ∧
      (∃ rec2, lookupInstance st1.instances c3Event.instanceId = some rec2 ∧
        rec2.executionArn = c3Placeholder.executionArn ∧
        rec2.creationTime = c3Placeholder.creationTime ∧
        rec2.status = "running") :=
  c3_persist_session_swap c3State c3Event "2026-01-01T00:10:00.000Z" c3Placeholder
    (by decide) (by decide) (by decide) (by decide)

end Lunaris
